import Mathlib

/-!
# A verification development for `shell.c`

Shallow embedding of the process orchestration of the shell: `execute_cd`,
`execute_command`, `execute_nonbuiltin`, `execute_simple_command`,
`execute_complex_command` and the loop of `main`.

The code runs against the operating system.  Every process is modelled from
its own point of view: a computation reads the results of its system calls
from a *script* (the list of results the OS is going to give, in call
order) and records every call together with its result in a *trace*.  A
call made after the script is exhausted fails with `-1`.  `fork` returning
`0` means "this process is the child", so one script describes one lineage
of processes from the interpreter down to a pipeline stage.  A computation
either returns to its caller, or the process ends (`exit`), or its image is
replaced (`execvp` succeeded).
-/

namespace Shell

/-! ## The operating-system interface -/

/-- The system and library calls `shell.c` makes, with their arguments. -/
inductive Call
  | getcwd (size : Nat)
  | chdir (path : String)
  | open_ (path : String) (flags : Nat) (mode : Nat)
  | dup2 (oldfd : Int) (newfd : Int)
  | close (fd : Int)
  | execvp (file : String) (argv : List String)
  | fork
  | wait
  | pipe
  | perror (msg : String)
  | printf (msg : String)
  deriving DecidableEq, Repr

/-- What a call gives back: the return value `ret` and the values it stores
through its pointer arguments.  `wait` stores the status in `val1`; `pipe`
stores `pfd[0]` in `val1` and `pfd[1]` in `val2`; `getcwd` leaves `text` in
the buffer (and returns `0` for a NULL result). -/
structure Resp where
  ret : Int
  val1 : Int
  val2 : Int
  text : String
  deriving DecidableEq, Repr

/-- The result of a call made after the script is exhausted: failure. -/
def Resp.dflt : Resp := ⟨-1, 0, 0, ""⟩

/-- The result recorded for `perror` and `printf`, whose value is unused. -/
def Resp.silent : Resp := ⟨0, 0, 0, ""⟩

/-- One entry of a trace: a call and what it gave back. -/
structure Event where
  call : Call
  resp : Resp
  deriving DecidableEq, Repr

/-- How a computation of a process ends. -/
inductive Result (α : Type)
  | returned (a : α)
  | exited (status : Int)
  | execd (file : String) (argv : List String)
  deriving DecidableEq, Repr

/-- A finished computation: how it ended, the calls it made (oldest first)
and the part of the script it did not consume. -/
structure Run (α : Type) where
  res : Result α
  trace : List Event
  rest : List Resp
  deriving DecidableEq, Repr

/-- A computation of a process, run against a script of call results. -/
@[reducible] def M (α : Type) : Type := List Resp → Run α

/-- A computation that returns without calling anything. -/
def M.pure {α : Type} (a : α) : M α := fun s => ⟨.returned a, [], s⟩

/-- Sequencing: the second computation runs only if the first returned. -/
def M.bind {α β : Type} (m : M α) (f : α → M β) : M β := fun s =>
  match (m s).res with
  | .returned a => ⟨(f a (m s).rest).res, (m s).trace ++ (f a (m s).rest).trace, (f a (m s).rest).rest⟩
  | .exited c => ⟨.exited c, (m s).trace, (m s).rest⟩
  | .execd f a => ⟨.execd f a, (m s).trace, (m s).rest⟩

instance : Monad M where
  pure := M.pure
  bind := M.bind

/-- The result the script gives to the next call. -/
def next (s : List Resp) : Resp :=
  match s with
  | [] => Resp.dflt
  | r :: _ => r

/-- Perform a call: take its result from the script and record both. -/
def sys (c : Call) : M Resp := fun s => ⟨.returned (next s), [⟨c, next s⟩], s.tail⟩

/-- Perform a call whose result is not used and not scripted (`perror`, `printf`). -/
def emit (c : Call) : M Unit := fun s => ⟨.returned (), [⟨c, Resp.silent⟩], s⟩

/-- The libc `exit`: the process ends, its parent sees the low eight bits. -/
def exit {α : Type} (status : Int) : M α := fun s => ⟨.exited (status % 256), [], s⟩

/-- The process image has been replaced: nothing of the shell runs any more. -/
def replaced {α : Type} (file : String) (argv : List String) : M α :=
  fun s => ⟨.execd file argv, [], s⟩

/-! ## Constants of the C library and of `shell.c` -/

def EXIT_SUCCESS : Int := 0
def EXIT_FAILURE : Int := 1
def MAX_DIRNAME : Nat := 100
def O_RDONLY : Nat := 0
def O_WRONLY : Nat := 1
def O_CREAT : Nat := 64
def O_TRUNC : Nat := 512
def S_IRWXU : Nat := 448
def STDIN_FILENO : Int := 0
def STDOUT_FILENO : Int := 1
def STDERR_FILENO : Int := 2

/-- The flags `O_WRONLY | O_TRUNC | O_CREAT` of the output and error redirections
(the three bits are disjoint, so the bitwise or is the sum). -/
def O_WRONLY_TRUNC_CREAT : Nat := O_WRONLY + O_TRUNC + O_CREAT

/-- The macro `WIFEXITED(status)` of `<sys/wait.h>`: `(status & 0x7f) == 0`. -/
def WIFEXITED (status : Int) : Bool := status % 128 == 0

/-- The macro `WEXITSTATUS(status)` of `<sys/wait.h>`: `(status & 0xff00) >> 8`. -/
def WEXITSTATUS (status : Int) : Int := status / 256 % 256

/-- The C `strlen`: the number of bytes of the string. -/
def strlen (s : String) : Nat := s.utf8ByteSize

/-! ## The command tree (`parser.h`) -/

/-- The `simple_command` of `parser.h`: the token array (`argv0` is
`tokens[0]`, which the parser never leaves out) and the three optional
redirection paths `in`, `out`, `err`. -/
structure simple_command where
  argv0 : String
  args : List String
  in_ : Option String
  out : Option String
  err : Option String
  deriving DecidableEq, Repr

/-- The NULL-terminated array `tokens` of a simple command. -/
def simple_command.tokens (s : simple_command) : List String := s.argv0 :: s.args

/-- The `command` of `parser.h`: a node whose `scmd` is set is a simple
command, any other node has an operator `oper` and two children. -/
inductive command
  | simple (scmd : simple_command)
  | complex (oper : String) (cmd1 : command) (cmd2 : command)
  deriving Repr

/-- The values `is_builtin` can return: `NONE` is `0`, the other two are the
constants `BUILTIN_CD` and `BUILTIN_EXIT`. -/
inductive BuiltinKind
  | NONE
  | CD
  | EXIT
  deriving DecidableEq, Repr

/-- Modelled from the spec: `is_builtin` is declared in `parser.h`, which is
not part of the sources.  The spec derives the kind "by string comparison
against the first argument" and recognizes `cd` and `exit`. -/
def is_builtin (tok : String) : BuiltinKind :=
  if tok = "cd" then .CD else if tok = "exit" then .EXIT else .NONE

/-- Modelled from the spec: `is_relative` is declared in `parser.h`, which is
not part of the sources.  The comment on `execute_cd` calls a path absolute
when it is "relative to root", that is when it starts with `/`. -/
def is_relative (path : String) : Bool := !(path.data.head? == some '/')

/-! ## The functions of `shell.c` -/

/-- `execute_cd` (shell.c 95-128).  `words` is `none` for a NULL pointer,
otherwise the strings before the terminating NULL. -/
def execute_cd (words : Option (List String)) : M Int :=
  match words with
  | none => pure EXIT_FAILURE
  | some [] => pure EXIT_FAILURE
  | some [_] => pure EXIT_FAILURE
  | some (w0 :: w1 :: _) =>
    if w0 ≠ "cd" then pure EXIT_FAILURE
    else if is_relative w1 then do
      let dir ← sys (.getcwd MAX_DIRNAME)
      if strlen w1 + strlen dir.text + 1 ≥ MAX_DIRNAME then pure EXIT_FAILURE
      else do
        let r ← sys (.chdir w1)
        pure r.ret
    else
      if strlen w1 ≥ MAX_DIRNAME then pure EXIT_FAILURE
      else do
        let r ← sys (.chdir w1)
        pure r.ret

/-- `execute_command` (shell.c 139-152): `execvp`, and only if that fails
`perror` and `EXIT_FAILURE`.  `execvp` returns `-1` when it fails; any other
scripted result stands for a replaced process image. -/
def execute_command (tokens0 : String) (tokens : List String) : M Int := do
  let r ← sys (.execvp tokens0 tokens)
  if r.ret = -1 then do
    emit (.perror tokens0)
    pure EXIT_FAILURE
  else replaced tokens0 tokens

/-- One of the three blocks of `execute_nonbuiltin` (shell.c 175-189, 191-205,
207-221): open the file, `dup2` it onto the stream, close the descriptor.
The value is `true` when the block falls through, `false` when it executes
`return EXIT_FAILURE`. -/
def redirect (path : String) (flags mode : Nat) (stream : Int) : M Bool := do
  let fd ← sys (.open_ path flags mode)
  if fd.ret = -1 then do
    emit (.perror "open")
    pure false
  else do
    let d ← sys (.dup2 fd.ret stream)
    if d.ret = -1 then do
      emit (.perror "dup2")
      pure false
    else do
      let c ← sys (.close fd.ret)
      if c.ret = -1 then do
        emit (.perror "close")
        pure false
      else pure true

/-- A redirection field of a simple command: nothing to do when it is NULL. -/
def redirect_field (path : Option String) (flags mode : Nat) (stream : Int) : M Bool :=
  match path with
  | none => pure true
  | some p => redirect p flags mode stream

/-- `execute_nonbuiltin` (shell.c 158-225). -/
def execute_nonbuiltin (s : simple_command) : M Int := do
  let okIn ← redirect_field s.in_ O_RDONLY 0 STDIN_FILENO
  if !okIn then pure EXIT_FAILURE
  else do
    let okOut ← redirect_field s.out O_WRONLY_TRUNC_CREAT S_IRWXU STDOUT_FILENO
    if !okOut then pure EXIT_FAILURE
    else do
      let okErr ← redirect_field s.err O_WRONLY_TRUNC_CREAT S_IRWXU STDERR_FILENO
      if !okErr then pure EXIT_FAILURE
      else do
        let _ ← execute_command s.argv0 s.tokens
        pure EXIT_FAILURE

/-- `execute_simple_command` (shell.c 231-287). -/
def execute_simple_command (cmd : simple_command) : M Int :=
  match is_builtin cmd.argv0 with
  | .CD => do
    let r ← execute_cd (some cmd.tokens)
    if r ≠ EXIT_SUCCESS then do
      emit (.printf "No such file or directory.\n")
      pure 0
    else pure 0
  | .EXIT => pure (-1)
  | .NONE => do
    let pid ← sys .fork
    if pid.ret < 0 then do
      emit (.perror "fork")
      pure EXIT_FAILURE
    else if pid.ret = 0 then do
      let r ← execute_nonbuiltin cmd
      exit r
    else do
      let w ← sys .wait
      if w.ret ≠ -1 then
        if WIFEXITED w.val1 then pure (WEXITSTATUS w.val1)
        else pure EXIT_FAILURE
      else do
        emit (.perror "wait")
        pure EXIT_FAILURE

/-- Put an event in front of the trace of a run. -/
def Run.after {α : Type} (e : Event) (r : Run α) : Run α := ⟨r.res, e :: r.trace, r.rest⟩

/-- The reaping loop of `execute_complex_command` (shell.c 385-400):
`while ((waitedPID = wait(&status)) > 0)`.  Each `wait` consumes the next
scripted report; on an exhausted script `wait` reports `-1` (no child is
left), so the loop is total. -/
def wait_loop (pid : Int) : Int → M Int
  | exitcode, [] => ⟨.returned exitcode, [⟨.wait, Resp.dflt⟩], []⟩
  | exitcode, w :: rest =>
    if w.ret > 0 then
      if WIFEXITED w.val1 then
        Run.after ⟨.wait, w⟩
          (wait_loop pid (if w.ret = pid then WEXITSTATUS w.val1 else exitcode) rest)
      else ⟨.returned EXIT_FAILURE, [⟨.wait, w⟩], rest⟩
    else ⟨.returned exitcode, [⟨.wait, w⟩], rest⟩

/-- `execute_complex_command` (shell.c 294-405). -/
def execute_complex_command : command → M Int
  | .simple scmd => do
    let r ← execute_nonbuiltin scmd
    exit r
  | .complex oper cmd1 cmd2 =>
    if oper = "|" then do
      let pfd ← sys .pipe
      if pfd.ret ≠ 0 then do
        emit (.perror "pipe")
        pure EXIT_FAILURE
      else do
        let pid ← sys .fork
        if pid.ret < 0 then do
          emit (.perror "fork")
          pure EXIT_FAILURE
        else if pid.ret = 0 then do
          let _ ← sys (.close pfd.val1)
          let d ← sys (.dup2 pfd.val2 STDOUT_FILENO)
          if d.ret < 0 then do
            emit (.perror "dup2")
            pure (-1)
          else do
            let r ← execute_complex_command cmd1
            exit r
        else do
          let pid ← sys .fork
          if pid.ret < 0 then do
            emit (.perror "fork")
            pure EXIT_FAILURE
          else if pid.ret = 0 then do
            let _ ← sys (.close pfd.val2)
            let d ← sys (.dup2 pfd.val1 STDIN_FILENO)
            if d.ret < 0 then do
              emit (.perror "dup2")
              pure (-1)
            else do
              let r ← execute_complex_command cmd2
              exit r
          else do
            let _ ← sys (.close pfd.val1)
            let _ ← sys (.close pfd.val2)
            wait_loop pid.ret (-1)
    else pure 0

/-- The executor the loop of `main` picks for a command (shell.c 64-78). -/
def execute (cmd : command) : M Int :=
  match cmd with
  | .simple scmd => execute_simple_command scmd
  | .complex oper cmd1 cmd2 => execute_complex_command (.complex oper cmd1 cmd2)

/-- One pass of the loop of `main` up to the executor's result (shell.c
41-78): the prompt is printed and the tree built from the line is executed. -/
def loop_body (cmd : command) : M Int := do
  let cwd ← sys (.getcwd (MAX_DIRNAME - 1))
  emit (.printf (cwd.text ++ "> "))
  execute cmd

/-- The loop of `main` (shell.c 39-80) over the lines read so far: `none`
is an empty line, `some cmd` the tree `construct_command` built.  The value
is `some 0` when the loop was left by `break` (and `main` returns `0`), and
`none` when every line was consumed and the loop is still reading. -/
def main_loop : List (Option command) → M (Option Int)
  | [] => pure none
  | none :: lines => do
    let cwd ← sys (.getcwd (MAX_DIRNAME - 1))
    emit (.printf (cwd.text ++ "> "))
    main_loop lines
  | some cmd :: lines => do
    let exitcode ← loop_body cmd
    if exitcode = -1 then pure (some 0)
    else main_loop lines

/-- The process that runs `main`: returning `n` from `main` ends the process
like `exit(n)`. -/
def main (lines : List (Option command)) : M (Option Int) := do
  let r ← main_loop lines
  match r with
  | some n => exit n
  | none => pure none

/-! ## Vocabulary of the statements -/

/-- The effect of one call on the descriptor table of the process: a
successful `open` adds its descriptor, a successful `pipe` adds both ends, a
successful `dup2` makes `newfd` open, a successful `close` removes the
descriptor; nothing else changes the table (a child starts with a copy of
its parent's table). -/
def fd_step (fds : List Int) (e : Event) : List Int :=
  match e.call with
  | .open_ _ _ _ => if e.resp.ret = -1 then fds else fds ++ [e.resp.ret]
  | .pipe => if e.resp.ret = 0 then fds ++ [e.resp.val1, e.resp.val2] else fds
  | .dup2 _ newfd => if e.resp.ret = -1 ∨ newfd ∈ fds then fds else fds ++ [newfd]
  | .close fd => if e.resp.ret = 0 then fds.erase fd else fds
  | _ => fds

/-- The descriptors open after a trace, in a process that started with `initial`. -/
def open_fds (initial : List Int) (trace : List Event) : List Int :=
  trace.foldl fd_step initial

/-- The libc `getcwd(buf, size)` in a process whose working directory is
`cwd`: when the path and its terminating byte fit in `size` bytes the buffer
holds `cwd`; otherwise the call fails with a NULL result and the buffer
keeps what it held before, `garbage` (the buffer of `execute_cd` is an
uninitialised local array). -/
def getcwd_result (cwd : String) (size : Nat) (garbage : String) : Resp :=
  if strlen cwd + 1 ≤ size then ⟨1, 0, 0, cwd⟩ else ⟨0, 0, 0, garbage⟩

/-- A working directory of 120 bytes. -/
def deep_directory : String := String.mk ('/' :: List.replicate 119 'd')

/-- The simple command `ls`. -/
def ls : simple_command := ⟨"ls", [], none, none, none⟩

/-- The simple command `wc -l`. -/
def wc : simple_command := ⟨"wc", ["-l"], none, none, none⟩

/-- The simple command `cat`. -/
def cat : simple_command := ⟨"cat", [], none, none, none⟩

/-- A scripted result that is only a return value. -/
def ret (n : Int) : Resp := ⟨n, 0, 0, ""⟩

/-! ## Basic facts about computations -/

theorem bind_apply {α β : Type} (m : M α) (f : α → M β) (s : List Resp) :
    (m >>= f) s = M.bind m f s := rfl

theorem pure_apply {α : Type} (a : α) (s : List Resp) :
    (pure a : M α) s = ⟨.returned a, [], s⟩ := rfl

@[simp] theorem next_cons (r : Resp) (s : List Resp) : next (r :: s) = r := rfl

@[simp] theorem next_nil : next [] = Resp.dflt := rfl

@[simp] theorem after_res {α : Type} (e : Event) (r : Run α) : (Run.after e r).res = r.res := rfl

@[simp] theorem after_trace {α : Type} (e : Event) (r : Run α) :
    (Run.after e r).trace = e :: r.trace := rfl

@[simp] theorem after_rest {α : Type} (e : Event) (r : Run α) :
    (Run.after e r).rest = r.rest := rfl

theorem ite_run {α : Type} (c : Prop) [Decidable c] (m1 m2 : M α) (s : List Resp) :
    (if c then m1 else m2) s = if c then m1 s else m2 s := by
  split <;> rfl

theorem sys_bind {β : Type} (c : Call) (f : Resp → M β) (s : List Resp) :
    M.bind (sys c) f s = Run.after ⟨c, next s⟩ (f (next s) s.tail) := rfl

theorem emit_bind {β : Type} (c : Call) (f : Unit → M β) (s : List Resp) :
    M.bind (emit c) f s = Run.after ⟨c, Resp.silent⟩ (f () s) := rfl

theorem bind_of_returned {α β : Type} (m : M α) (f : α → M β) (s : List Resp) (a : α)
    (h : (m s).res = .returned a) :
    M.bind m f s
      = ⟨(f a (m s).rest).res, (m s).trace ++ (f a (m s).rest).trace, (f a (m s).rest).rest⟩ := by
  simp [M.bind, h]

/-- `execute_cd` always returns to its caller, and the only calls it makes
are `getcwd` and `chdir`. -/
theorem execute_cd_returns (words : Option (List String)) (script : List Resp) :
    (∃ v, (execute_cd words script).res = .returned v) ∧
    ∀ e ∈ (execute_cd words script).trace,
      e.call = .getcwd MAX_DIRNAME ∨ ∃ p, e.call = .chdir p := by
  unfold execute_cd
  split
  · simp [pure_apply]
  · simp [pure_apply]
  · simp [pure_apply]
  · split_ifs
    all_goals simp only [pure_apply, bind_apply, sys_bind, ite_run]
    all_goals try split_ifs
    all_goals simp

/-- C5, as stated, fails: for `cd /nonexistent` with a failing `chdir`,
`execute_cd` returns `-1` and `execute_simple_command` still returns `0`. -/
theorem cd_failure_returns_zero :
    (execute_cd (some ["cd", "/nonexistent"]) [⟨-1, 0, 0, ""⟩]).res = .returned (-1) ∧
    (execute_simple_command ⟨"cd", ["/nonexistent"], none, none, none⟩ [⟨-1, 0, 0, ""⟩]).res
      = .returned 0 := by
  decide

/-- C5, amended: for every simple command classified as the CD builtin,
`execute_cd` returns some `v` and `execute_simple_command` returns `0`
whether `v` is `EXIT_SUCCESS` or not; it makes the calls of `execute_cd`,
followed by the message "No such file or directory." exactly when
`v ≠ EXIT_SUCCESS`, and never calls `fork` or `execvp`. -/
theorem cd_builtin_returns_zero (cmd : simple_command) (h : is_builtin cmd.argv0 = .CD)
    (script : List Resp) :
    ∃ v : Int, (execute_cd (some cmd.tokens) script).res = .returned v ∧
      (execute_simple_command cmd script).res = .returned 0 ∧
      (execute_simple_command cmd script).trace
        = (execute_cd (some cmd.tokens) script).trace
            ++ (if v ≠ EXIT_SUCCESS then [⟨.printf "No such file or directory.\n", Resp.silent⟩]
                else []) ∧
      (execute_simple_command cmd script).rest = (execute_cd (some cmd.tokens) script).rest ∧
      ∀ e ∈ (execute_simple_command cmd script).trace,
        e.call ≠ .fork ∧ ∀ f a, e.call ≠ .execvp f a := by
  obtain ⟨⟨v, hv⟩, hcalls⟩ := execute_cd_returns (some cmd.tokens) script
  have hrun : execute_simple_command cmd script
      = ⟨.returned 0, (execute_cd (some cmd.tokens) script).trace
            ++ (if v ≠ EXIT_SUCCESS then [⟨.printf "No such file or directory.\n", Resp.silent⟩]
                else []), (execute_cd (some cmd.tokens) script).rest⟩ := by
    simp only [execute_simple_command, h, bind_apply]
    rw [bind_of_returned _ _ _ v hv]
    by_cases h0 : v = EXIT_SUCCESS
    · simp [h0, pure_apply]
    · simp [h0, pure_apply, bind_apply, emit_bind, Run.after]
  refine ⟨v, hv, by rw [hrun], by rw [hrun], by rw [hrun], ?_⟩
  intro e he
  rw [hrun] at he
  simp only [List.mem_append] at he
  rcases he with he | he
  · rcases hcalls e he with hc | ⟨p, hc⟩ <;> simp [hc]
  · split_ifs at he
    · simp at he
      simp [he]
    · simp at he

/-- The command `cd /tmp` with a successful `chdir` returns `0`. -/
theorem cd_builtin_returns_zero_witness :
    ∃ v : Int, (execute_cd (some ["cd", "/tmp"]) [⟨0, 0, 0, ""⟩]).res = .returned v ∧
      (execute_simple_command ⟨"cd", ["/tmp"], none, none, none⟩ [⟨0, 0, 0, ""⟩]).res
        = .returned 0 := by
  obtain ⟨v, h1, h2, _⟩ :=
    cd_builtin_returns_zero ⟨"cd", ["/tmp"], none, none, none⟩ (by decide) [⟨0, 0, 0, ""⟩]
  exact ⟨v, h1, h2⟩

/-- An exit code read with `WEXITSTATUS` lies in `0..255`. -/
theorem WEXITSTATUS_range (status : Int) : 0 ≤ WEXITSTATUS status ∧ WEXITSTATUS status ≤ 255 := by
  unfold WEXITSTATUS
  omega

/-- X4: for every simple command whose first token is not a builtin, in the
process where `fork` did not return `0` (the interpreter): a failed `fork`
gives `EXIT_FAILURE`; after a successful `fork`, a failed `wait` gives
`EXIT_FAILURE`, a reported abnormal termination gives `EXIT_FAILURE`, and a
reported normal termination gives the exit code `WEXITSTATUS` of the status
`wait` stored, whichever process that `wait` reports.  In all these cases
the result lies in `0..255` and is not the sentinel `-1`. -/
theorem nonbuiltin_parent_status (cmd : simple_command) (h : is_builtin cmd.argv0 = .NONE)
    (script : List Resp) :
    ((next script).ret < 0 →
      (execute_simple_command cmd script).res = .returned EXIT_FAILURE) ∧
    (0 < (next script).ret → (next script.tail).ret = -1 →
      (execute_simple_command cmd script).res = .returned EXIT_FAILURE) ∧
    (0 < (next script).ret → (next script.tail).ret ≠ -1 →
      WIFEXITED (next script.tail).val1 = false →
      (execute_simple_command cmd script).res = .returned EXIT_FAILURE) ∧
    (0 < (next script).ret → (next script.tail).ret ≠ -1 →
      WIFEXITED (next script.tail).val1 = true →
      (execute_simple_command cmd script).res
        = .returned (WEXITSTATUS (next script.tail).val1)) ∧
    ((next script).ret ≠ 0 →
      ∃ v : Int, (execute_simple_command cmd script).res = .returned v ∧
        0 ≤ v ∧ v ≤ 255 ∧ v ≠ -1) := by
  have hneg : (next script).ret < 0 →
      (execute_simple_command cmd script).res = .returned EXIT_FAILURE := by
    intro h1
    simp [execute_simple_command, h, bind_apply, sys_bind, emit_bind, pure_apply, ite_run, h1]
  have hpos : 0 < (next script).ret →
      (execute_simple_command cmd script).res
        = if (next script.tail).ret ≠ -1 then
            (if WIFEXITED (next script.tail).val1 then .returned (WEXITSTATUS (next script.tail).val1)
             else .returned EXIT_FAILURE)
          else .returned EXIT_FAILURE := by
    intro h1
    have h3 : ¬ (next script).ret < 0 := by omega
    have h4 : ¬ (next script).ret = 0 := by omega
    simp only [execute_simple_command, h, bind_apply, sys_bind, emit_bind, pure_apply, ite_run,
      h3, h4, if_false, after_res]
    split_ifs <;> simp [emit_bind, pure_apply, bind_apply]
  refine ⟨hneg, ?_, ?_, ?_, ?_⟩
  · intro h1 h2
    simp [hpos h1, h2]
  · intro h1 h2 h3
    simp [hpos h1, h2, h3]
  · intro h1 h2 h3
    simp [hpos h1, h2, h3]
  · intro h0
    rcases lt_or_gt_of_ne h0 with h1 | h1
    · exact ⟨EXIT_FAILURE, hneg h1, by decide, by decide, by decide⟩
    · rw [hpos h1]
      have hr := WEXITSTATUS_range (next script.tail).val1
      split_ifs
      · exact ⟨_, rfl, hr.1, hr.2, by omega⟩
      · exact ⟨EXIT_FAILURE, rfl, by decide, by decide, by decide⟩
      · exact ⟨EXIT_FAILURE, rfl, by decide, by decide, by decide⟩

/-- The command `false`: the child 100 exits with code 1 and the
interpreter returns 1. -/
theorem nonbuiltin_parent_status_witness :
    (execute_simple_command ⟨"false", [], none, none, none⟩ [⟨100, 0, 0, ""⟩, ⟨100, 256, 0, ""⟩]).res
      = .returned 1 :=
  (nonbuiltin_parent_status ⟨"false", [], none, none, none⟩ (by decide)
    [⟨100, 0, 0, ""⟩, ⟨100, 256, 0, ""⟩]).2.2.2.1 (by decide) (by decide) (by decide)

/-! ## The pipeline: status and reaping -/

/-- The orchestrating process of a pipe node, once `pipe` and both `fork`
calls have succeeded: it closes both ends and runs the reaping loop. -/
theorem orchestrator_run (cmd1 cmd2 : command) (pfd f1 f2 c1 c2 : Resp) (reports : List Resp)
    (hp : pfd.ret = 0) (h1 : 0 < f1.ret) (h2 : 0 < f2.ret) :
    execute_complex_command (.complex "|" cmd1 cmd2) (pfd :: f1 :: f2 :: c1 :: c2 :: reports)
      = Run.after ⟨.pipe, pfd⟩ (Run.after ⟨.fork, f1⟩ (Run.after ⟨.fork, f2⟩
          (Run.after ⟨.close pfd.val1, c1⟩ (Run.after ⟨.close pfd.val2, c2⟩
            (wait_loop f2.ret (-1) reports))))) := by
  have h3 : ¬ f1.ret < 0 := by omega
  have h4 : ¬ f1.ret = 0 := by omega
  have h5 : ¬ f2.ret < 0 := by omega
  have h6 : ¬ f2.ret = 0 := by omega
  simp [execute_complex_command, bind_apply, sys_bind, ite_run, hp, h3, h4, h5, h6]

/-- While every report is a normal exit of a process other than `pid`, the
loop keeps the exit code it has. -/
theorem wait_loop_others (pid : Int) (evs stop : List Resp) (exitcode : Int)
    (hev : ∀ e ∈ evs, 0 < e.ret ∧ WIFEXITED e.val1 = true)
    (hstop : ∀ e ∈ stop.head?, e.ret ≤ 0)
    (hpid : ∀ e ∈ evs, e.ret ≠ pid) :
    (wait_loop pid exitcode (evs ++ stop)).res = .returned exitcode := by
  induction evs generalizing exitcode with
  | nil =>
    cases stop with
    | nil => simp [wait_loop]
    | cons w rest =>
      have hw : ¬ 0 < w.ret := by
        have := hstop w (by simp)
        omega
      simp [wait_loop, hw]
  | cons w evs ih =>
    have h1 := hev w (by simp)
    have h2 := hpid w (by simp)
    simp only [List.cons_append, wait_loop, gt_iff_lt, h1.1, h1.2, if_true, h2, if_false, after_res]
    exact ih exitcode (fun e he => hev e (by simp [he])) (fun e he => hpid e (by simp [he]))

/-- When every report is a normal exit, each process is reported once and
`pid` is among them, the loop returns the exit code of `pid`. -/
theorem wait_loop_reports_pid (pid : Int) (evs stop : List Resp) (exitcode : Int) (st : Int)
    (hev : ∀ e ∈ evs, 0 < e.ret ∧ WIFEXITED e.val1 = true)
    (hstop : ∀ e ∈ stop.head?, e.ret ≤ 0)
    (hnodup : (evs.map Resp.ret).Nodup)
    (hmem : ∃ e ∈ evs, e.ret = pid ∧ e.val1 = st) :
    (wait_loop pid exitcode (evs ++ stop)).res = .returned (WEXITSTATUS st) := by
  induction evs generalizing exitcode with
  | nil => simp at hmem
  | cons w evs ih =>
    have h1 := hev w (by simp)
    have hev2 : ∀ e ∈ evs, 0 < e.ret ∧ WIFEXITED e.val1 = true := fun e he => hev e (by simp [he])
    simp only [List.map_cons, List.nodup_cons, List.mem_map, not_exists, not_and] at hnodup
    simp only [List.cons_append, wait_loop, gt_iff_lt, h1.1, h1.2, if_true, after_res]
    by_cases hw : w.ret = pid
    · obtain ⟨e, he, hep, hest⟩ := hmem
      have hwe : e = w := by
        rcases List.mem_cons.mp he with h | h
        · exact h
        · exact absurd (hep.trans hw.symm) (hnodup.1 e h)
      subst hwe
      simp only [hw, if_true, hest]
      exact wait_loop_others pid evs stop _ hev2 hstop
        (fun e2 he2 h2 => hnodup.1 e2 he2 (h2.trans hep.symm))
    · obtain ⟨e, he, hep, hest⟩ := hmem
      simp only [hw, if_false]
      rcases List.mem_cons.mp he with h | h
      · exact absurd (h ▸ hep) hw
      · exact ih exitcode hev2 hnodup.2 ⟨e, h, hep, hest⟩

/-- X3: for every pipe node, in the orchestrating process (`pipe` and both
`fork` calls succeeded), whenever the terminations `wait` reports are all
normal exits, each process reported once, in any order, and the second-forked
child is among them with status `st`, the returned status is that child's
exit code `WEXITSTATUS st`, whatever the codes of the other reaped processes. -/
theorem pipeline_status_is_last_stage (cmd1 cmd2 : command) (pfd f1 f2 c1 c2 : Resp)
    (evs stop : List Resp) (st : Int)
    (hp : pfd.ret = 0) (h1 : 0 < f1.ret) (h2 : 0 < f2.ret)
    (hev : ∀ e ∈ evs, 0 < e.ret ∧ WIFEXITED e.val1 = true)
    (hstop : ∀ e ∈ stop.head?, e.ret ≤ 0)
    (hnodup : (evs.map Resp.ret).Nodup)
    (hmem : ∃ e ∈ evs, e.ret = f2.ret ∧ e.val1 = st) :
    (execute_complex_command (.complex "|" cmd1 cmd2)
        (pfd :: f1 :: f2 :: c1 :: c2 :: (evs ++ stop))).res
      = .returned (WEXITSTATUS st) := by
  rw [orchestrator_run cmd1 cmd2 pfd f1 f2 c1 c2 (evs ++ stop) hp h1 h2]
  simp only [after_res]
  exact wait_loop_reports_pid f2.ret evs stop (-1) st hev hstop hnodup hmem

/-! ## Redirections -/

/-- The pipeline `ls | wc -l`: the second child 101 exits with code 7 and is
reported first, the first child 100 exits with code 1; the status is 7. -/
theorem pipeline_status_is_last_stage_witness :
    (execute_complex_command (.complex "|" (.simple ls) (.simple wc))
        (⟨0, 3, 4, ""⟩ :: ret 100 :: ret 101 :: ret 0 :: ret 0
          :: ([⟨101, 1792, 0, ""⟩, ⟨100, 256, 0, ""⟩] ++ []))).res
      = .returned 7 :=
  pipeline_status_is_last_stage (.simple ls) (.simple wc) ⟨0, 3, 4, ""⟩ (ret 100) (ret 101)
    (ret 0) (ret 0) [⟨101, 1792, 0, ""⟩, ⟨100, 256, 0, ""⟩] [] 1792
    (by decide) (by decide) (by decide) (by decide) (by simp) (by decide)
    ⟨⟨101, 1792, 0, ""⟩, by simp, rfl, rfl⟩

/-- C1, evaluated where it fails: in `ls | wc -l` the second child (101)
exits with code 0 and the first child (100) is killed by signal 13.  In
either order of the two reports the orchestrating process returns
`EXIT_FAILURE`, not the exit code 0 of the second child; when the second
child is reported first its code has already been read and is dropped. -/
theorem abnormal_first_child_replaces_status :
    execute_complex_command (.complex "|" (.simple ls) (.simple wc))
        [⟨0, 3, 4, ""⟩, ret 100, ret 101, ret 0, ret 0, ⟨101, 0, 0, ""⟩, ⟨100, 13, 0, ""⟩,
         ret (-1)]
      = ⟨.returned EXIT_FAILURE,
          [⟨.pipe, ⟨0, 3, 4, ""⟩⟩, ⟨.fork, ret 100⟩, ⟨.fork, ret 101⟩, ⟨.close 3, ret 0⟩,
           ⟨.close 4, ret 0⟩, ⟨.wait, ⟨101, 0, 0, ""⟩⟩, ⟨.wait, ⟨100, 13, 0, ""⟩⟩],
          [ret (-1)]⟩ ∧
    (execute_complex_command (.complex "|" (.simple ls) (.simple wc))
        [⟨0, 3, 4, ""⟩, ret 100, ret 101, ret 0, ret 0, ⟨100, 13, 0, ""⟩, ⟨101, 0, 0, ""⟩,
         ret (-1)]).res = .returned EXIT_FAILURE ∧
    WIFEXITED 0 = true ∧ WEXITSTATUS 0 = 0 ∧ WIFEXITED 13 = false := by
  decide

/-- C3, evaluated where it fails: the interpreter has an earlier child (981)
still unreaped and runs `sh -c "exit 3"`.  `fork` gives the child 982,
`wait` reports the termination of 981 with exit code 0, and
`execute_simple_command` returns 0; the report of the child 982 (status 768,
exit code 3) is left unread. -/
theorem wait_reports_another_child :
    execute_simple_command ⟨"sh", ["-c", "exit 3"], none, none, none⟩
        [ret 982, ⟨981, 0, 0, ""⟩, ⟨982, 768, 0, ""⟩]
      = ⟨.returned 0, [⟨.fork, ret 982⟩, ⟨.wait, ⟨981, 0, 0, ""⟩⟩], [⟨982, 768, 0, ""⟩]⟩ ∧
    WIFEXITED 768 = true ∧ WEXITSTATUS 768 = 3 := by
  decide

/-- C2, evaluated where it fails: in `ls | wc -l` the first child (100) is
killed by signal 9 and reported first.  The orchestrating process returns
`EXIT_FAILURE` after that single `wait`: the report of the second child
(101) is still in the script, and no `wait` has reported that no child is
left. -/
theorem abnormal_termination_ends_reaping :
    execute_complex_command (.complex "|" (.simple ls) (.simple wc))
        [⟨0, 3, 4, ""⟩, ret 100, ret 101, ret 0, ret 0, ⟨100, 9, 0, ""⟩, ⟨101, 0, 0, ""⟩, ret (-1)]
      = ⟨.returned EXIT_FAILURE,
          [⟨.pipe, ⟨0, 3, 4, ""⟩⟩, ⟨.fork, ret 100⟩, ⟨.fork, ret 101⟩, ⟨.close 3, ret 0⟩,
           ⟨.close 4, ret 0⟩, ⟨.wait, ⟨100, 9, 0, ""⟩⟩],
          [⟨101, 0, 0, ""⟩, ret (-1)]⟩ := by
  decide

/-- C8, evaluated where it fails: in `ls | wc -l`, with the pipe on the
descriptors 3 and 4, the first child reaches `execvp` with the write end 4
still open beside 0, 1, 2, and the second child with the read end 3 still
open: neither closes the end it duplicated. -/
theorem pipeline_stage_inherits_pipe_end :
    ((execute_complex_command (.complex "|" (.simple ls) (.simple wc))
        [⟨0, 3, 4, ""⟩, ret 0, ret 0, ret 1, ret 0]).res = .execd "ls" ["ls"] ∧
      (execute_complex_command (.complex "|" (.simple ls) (.simple wc))
        [⟨0, 3, 4, ""⟩, ret 0, ret 0, ret 1, ret 0]).trace.map Event.call
        = [.pipe, .fork, .close 3, .dup2 4 1, .execvp "ls" ["ls"]] ∧
      open_fds [0, 1, 2] (execute_complex_command (.complex "|" (.simple ls) (.simple wc))
        [⟨0, 3, 4, ""⟩, ret 0, ret 0, ret 1, ret 0]).trace = [0, 1, 2, 4]) ∧
    ((execute_complex_command (.complex "|" (.simple ls) (.simple wc))
        [⟨0, 3, 4, ""⟩, ret 100, ret 0, ret 0, ret 0, ret 0]).res = .execd "wc" ["wc", "-l"] ∧
      (execute_complex_command (.complex "|" (.simple ls) (.simple wc))
        [⟨0, 3, 4, ""⟩, ret 100, ret 0, ret 0, ret 0, ret 0]).trace.map Event.call
        = [.pipe, .fork, .fork, .close 4, .dup2 3 0, .execvp "wc" ["wc", "-l"]] ∧
      open_fds [0, 1, 2] (execute_complex_command (.complex "|" (.simple ls) (.simple wc))
        [⟨0, 3, 4, ""⟩, ret 100, ret 0, ret 0, ret 0, ret 0]).trace = [0, 1, 2, 3]) := by
  decide

/-- C9, evaluated where it fails: at the top level, in the first child of
`ls | wc -l`, a failing `dup2` makes `execute_complex_command` return `-1` to
the loop of `main`, which breaks, and the child ends with status `0`.  In a
nested pipe node the same failure ends the child with status `255`. -/
theorem dup2_failure_at_top_level_exits_zero :
    main [some (.complex "|" (.simple ls) (.simple wc))]
        [⟨1, 0, 0, "/home"⟩, ⟨0, 3, 4, ""⟩, ret 0, ret 0, ret (-1)]
      = ⟨.exited 0,
          [⟨.getcwd 99, ⟨1, 0, 0, "/home"⟩⟩, ⟨.printf "/home> ", Resp.silent⟩,
           ⟨.pipe, ⟨0, 3, 4, ""⟩⟩, ⟨.fork, ret 0⟩, ⟨.close 3, ret 0⟩, ⟨.dup2 4 1, ret (-1)⟩,
           ⟨.perror "dup2", Resp.silent⟩],
          []⟩ ∧
    (main [some (.complex "|" (.simple ls) (.complex "|" (.simple cat) (.simple wc)))]
        [⟨1, 0, 0, "/home"⟩, ⟨0, 3, 4, ""⟩, ret 100, ret 0, ret 0, ret 0, ⟨0, 5, 6, ""⟩, ret 0,
         ret 0, ret (-1)]).res = .exited 255 := by
  decide

set_option maxRecDepth 100000 in
/-- C6, evaluated where it fails: in a working directory of 120 bytes
`getcwd` fails and leaves the buffer as it was; when that reads as the empty
string, `cd x` passes the length check although `120 + 1 + 1 ≥ MAX_DIRNAME`,
and `chdir` is called. -/
theorem cd_below_deep_directory_calls_chdir :
    MAX_DIRNAME ≤ strlen deep_directory + 1 + strlen "x" ∧ is_relative "x" = true ∧
    execute_cd (some ["cd", "x"]) [getcwd_result deep_directory MAX_DIRNAME "", ret 0]
      = ⟨.returned 0, [⟨.getcwd MAX_DIRNAME, ⟨0, 0, 0, ""⟩⟩, ⟨.chdir "x", ret 0⟩], []⟩ := by
  decide

/-! ## What holds next to the failing cases -/

/-- When every report is a normal exit, the loop consumes all of them and
ends on the `wait` that reports no child. -/
theorem wait_loop_drains (pid : Int) (evs stop : List Resp) (exitcode : Int)
    (hev : ∀ e ∈ evs, 0 < e.ret ∧ WIFEXITED e.val1 = true)
    (hstop : ∀ e ∈ stop.head?, e.ret ≤ 0) :
    (wait_loop pid exitcode (evs ++ stop)).trace
        = evs.map (fun e => ⟨.wait, e⟩) ++ [⟨.wait, next stop⟩] ∧
      (wait_loop pid exitcode (evs ++ stop)).rest = stop.tail ∧
      (next stop).ret ≤ 0 := by
  induction evs generalizing exitcode with
  | nil =>
    cases stop with
    | nil => simp [wait_loop, Resp.dflt]
    | cons w rest =>
      have hw : w.ret ≤ 0 := hstop w (by simp)
      have hw2 : ¬ 0 < w.ret := by omega
      simp [wait_loop, hw2, hw]
  | cons w evs ih =>
    have h1 := hev w (by simp)
    obtain ⟨i1, i2, i3⟩ := ih (if w.ret = pid then WEXITSTATUS w.val1 else exitcode)
      (fun e he => hev e (by simp [he]))
    simp only [List.cons_append, wait_loop, gt_iff_lt, h1.1, h1.2, if_true, after_trace,
      after_rest, List.map_cons]
    exact ⟨congrArg (List.cons _) i1, i2, i3⟩

/-- X1: for every pipe node, in the orchestrating process, when every
termination `wait` reports is a normal exit, the process makes one `wait` per
report and returns after a final `wait` whose result is not positive (no
child is left). -/
theorem pipeline_reaps_normal_exits (cmd1 cmd2 : command) (pfd f1 f2 c1 c2 : Resp)
    (evs stop : List Resp)
    (hp : pfd.ret = 0) (h1 : 0 < f1.ret) (h2 : 0 < f2.ret)
    (hev : ∀ e ∈ evs, 0 < e.ret ∧ WIFEXITED e.val1 = true)
    (hstop : ∀ e ∈ stop.head?, e.ret ≤ 0) :
    (execute_complex_command (.complex "|" cmd1 cmd2)
        (pfd :: f1 :: f2 :: c1 :: c2 :: (evs ++ stop))).trace
      = [⟨.pipe, pfd⟩, ⟨.fork, f1⟩, ⟨.fork, f2⟩, ⟨.close pfd.val1, c1⟩, ⟨.close pfd.val2, c2⟩]
          ++ evs.map (fun e => ⟨.wait, e⟩) ++ [⟨.wait, next stop⟩] ∧
    (next stop).ret ≤ 0 := by
  rw [orchestrator_run cmd1 cmd2 pfd f1 f2 c1 c2 (evs ++ stop) hp h1 h2]
  obtain ⟨i1, _, i3⟩ := wait_loop_drains f2.ret evs stop (-1) hev hstop
  simp [i1, i3]

/-- The pipeline `ls | wc -l` with two normal exits: three calls of `wait`. -/
theorem pipeline_reaps_normal_exits_witness :
    (execute_complex_command (.complex "|" (.simple ls) (.simple wc))
        (⟨0, 3, 4, ""⟩ :: ret 100 :: ret 101 :: ret 0 :: ret 0
          :: ([⟨101, 1792, 0, ""⟩, ⟨100, 256, 0, ""⟩] ++ []))).trace
      = [⟨.pipe, ⟨0, 3, 4, ""⟩⟩, ⟨.fork, ret 100⟩, ⟨.fork, ret 101⟩, ⟨.close 3, ret 0⟩,
          ⟨.close 4, ret 0⟩, ⟨.wait, ⟨101, 1792, 0, ""⟩⟩, ⟨.wait, ⟨100, 256, 0, ""⟩⟩,
          ⟨.wait, Resp.dflt⟩] :=
  (pipeline_reaps_normal_exits (.simple ls) (.simple wc) ⟨0, 3, 4, ""⟩ (ret 100) (ret 101)
    (ret 0) (ret 0) [⟨101, 1792, 0, ""⟩, ⟨100, 256, 0, ""⟩] []
    (by decide) (by decide) (by decide) (by decide) (by simp)).1

/-- X2: when the working directory fits in the buffer of `MAX_DIRNAME`
bytes, `execute_cd ["cd", path]` returns `EXIT_FAILURE` without calling
`chdir` if the resolved length (`strlen path` for an absolute path,
`strlen cwd + 1 + strlen path` for a relative one) reaches `MAX_DIRNAME`,
and otherwise calls `chdir path` once and returns its result. -/
theorem execute_cd_length_check (cwd path garbage : String) (c : Resp) (rest : List Resp)
    (hfit : strlen cwd + 1 ≤ MAX_DIRNAME) :
    (is_relative path = true → MAX_DIRNAME ≤ strlen cwd + 1 + strlen path →
      execute_cd (some ["cd", path]) (getcwd_result cwd MAX_DIRNAME garbage :: c :: rest)
        = ⟨.returned EXIT_FAILURE, [⟨.getcwd MAX_DIRNAME, ⟨1, 0, 0, cwd⟩⟩], c :: rest⟩) ∧
    (is_relative path = true → strlen cwd + 1 + strlen path < MAX_DIRNAME →
      execute_cd (some ["cd", path]) (getcwd_result cwd MAX_DIRNAME garbage :: c :: rest)
        = ⟨.returned c.ret, [⟨.getcwd MAX_DIRNAME, ⟨1, 0, 0, cwd⟩⟩, ⟨.chdir path, c⟩], rest⟩) ∧
    (is_relative path = false → MAX_DIRNAME ≤ strlen path →
      execute_cd (some ["cd", path]) (c :: rest) = ⟨.returned EXIT_FAILURE, [], c :: rest⟩) ∧
    (is_relative path = false → strlen path < MAX_DIRNAME →
      execute_cd (some ["cd", path]) (c :: rest) = ⟨.returned c.ret, [⟨.chdir path, c⟩], rest⟩) := by
  have hg : getcwd_result cwd MAX_DIRNAME garbage = ⟨1, 0, 0, cwd⟩ := by
    simp [getcwd_result, hfit]
  refine ⟨?_, ?_, ?_, ?_⟩
  · intro hr hlen
    have : MAX_DIRNAME ≤ strlen path + strlen cwd + 1 := by omega
    simp [execute_cd, hr, hg, bind_apply, sys_bind, ite_run, pure_apply, this, Run.after]
  · intro hr hlen
    have : ¬ MAX_DIRNAME ≤ strlen path + strlen cwd + 1 := by omega
    simp [execute_cd, hr, hg, bind_apply, sys_bind, ite_run, pure_apply, this, Run.after]
  · intro hr hlen
    simp [execute_cd, hr, ite_run, pure_apply, hlen]
  · intro hr hlen
    have : ¬ MAX_DIRNAME ≤ strlen path := by omega
    simp [execute_cd, hr, bind_apply, sys_bind, ite_run, pure_apply, this, Run.after]

/-- From `/home`, `cd src` calls `chdir "src"`. -/
theorem execute_cd_length_check_witness :
    execute_cd (some ["cd", "src"]) (getcwd_result "/home" MAX_DIRNAME "" :: ret 0 :: [])
      = ⟨.returned 0, [⟨.getcwd MAX_DIRNAME, ⟨1, 0, 0, "/home"⟩⟩, ⟨.chdir "src", ret 0⟩], []⟩ :=
  (execute_cd_length_check "/home" "src" "" (ret 0) [] (by decide)).2.1 (by decide) (by decide)

end Shell
